import Mathlib

/-!
Shallow embedding of the FlutterMCP weather demo (src/weather/weather.py and
src/mcp-client/client.py) and verification of its specification.

The weather server exposes two MCP tools, `get_alerts` and `get_forecast`,
implemented as Python async functions that issue HTTP GETs through
`_get_json` (which swallows every exception and returns `None`) and format
JSON payloads into text.  We model JSON values as an inductive `Json` type,
the network as an oracle `env : String → Option Json` mapping a URL to the
result of `_get_json`, and the tool bodies as pure functions that also
return the list of URLs they fetched (the HTTP trace).  Python expressions
that can raise (`in` on a non-container, `.get` on a non-dict, subscripts)
are modelled in the `Except PyErr` monad.

The client REPL (`client.py`'s `main` loop) is modelled as a step function
on an explicit state machine, parameterised by an oracle for
`session.call_tool` results.
-/

namespace FlutterMCP

/-- A JSON value, as produced by `r.json()` in `_get_json`.  Python dicts are
modelled as association lists (first binding wins on lookup); numbers as
rationals. -/
inductive Json where
  | null : Json
  | bool : Bool → Json
  | num : Rat → Json
  | str : String → Json
  | arr : List Json → Json
  | obj : List (String × Json) → Json


/-- Python truthiness (`bool(x)`) for JSON-decoded values: `None`, `False`,
`0`, `""`, `[]` and `{}` are falsy. -/
def pyTruthy : Json → Bool
  | .null => false
  | .bool b => b
  | .num q => q != 0
  | .str s => !s.isEmpty
  | .arr xs => !xs.isEmpty
  | .obj fs => !fs.isEmpty

/-- Errors a modelled Python expression may raise. -/
inductive PyErr where
  | typeError : PyErr
  | attributeError : PyErr
  | keyError : PyErr
deriving DecidableEq

/-- Whether `needle` occurs contiguously in `hay` (the empty needle occurs
in every list). -/
def containsSub (hay needle : List Char) : Bool :=
  match hay with
  | [] => needle.isEmpty
  | c :: t => needle.isPrefixOf (c :: t) || containsSub t needle

/-- Substring test, modelling Python's `needle in haystack` for strings
(the empty needle is contained in every string). -/
def strContains (haystack needle : String) : Bool :=
  containsSub haystack.data needle.data

/-- Python's `key in x` for a string `key` and a JSON-decoded `x`:
key membership for dicts, element equality for lists, substring test for
strings, `TypeError` otherwise. -/
def pyIn (key : String) : Json → Except PyErr Bool
  | .obj fs => .ok (fs.any (fun p => p.1 == key))
  | .arr xs => .ok (xs.any (fun j => match j with | .str s => s == key | _ => false))
  | .str s => .ok (strContains s key)
  | _ => .error .typeError

/-- Lookup in an association list modelling `dict` access, returning the
default when the key is absent. -/
def getD (fs : List (String × Json)) (key : String) (dflt : Json) : Json :=
  ((fs.find? (fun p => p.1 == key)).map (fun p => p.2)).getD dflt

/-- Python's `x.get(key, default)`: only dicts have `.get`, anything else
raises `AttributeError`. -/
def dictGet (x : Json) (key : String) (dflt : Json) : Except PyErr Json :=
  match x with
  | .obj fs => .ok (getD fs key dflt)
  | _ => .error .attributeError

/-- Python's `x[key]` for a string key: dict lookup (`KeyError` when absent),
`TypeError` on every other JSON value. -/
def subscript (x : Json) (key : String) : Except PyErr Json :=
  match x with
  | .obj fs =>
    match fs.find? (fun p => p.1 == key) with
    | some p => .ok p.2
    | none => .error .keyError
  | _ => .error .typeError

/-- Rendering of a JSON number under `str()` / f-string interpolation.
Integral values print like Python ints; the (unused in practice)
non-integral case falls back to the rational rendering, abstracting
Python's float repr, which has no exact rational counterpart. -/
def ratStr (q : Rat) : String :=
  if q.den = 1 then toString q.num else toString q

mutual

/-- Python `repr()` restricted to JSON-decoded values (string escaping is not
modelled; strings are shown between plain single quotes). -/
def pyRepr : Json → String
  | .null => "None"
  | .bool true => "True"
  | .bool false => "False"
  | .num q => ratStr q
  | .str s => "'" ++ s ++ "'"
  | .arr xs => "[" ++ String.intercalate ", " (pyReprList xs) ++ "]"
  | .obj fs => "\x7b" ++ String.intercalate ", " (pyReprFields fs) ++ "\x7d"

/-- `repr` of each element of a JSON array. -/
def pyReprList : List Json → List String
  | [] => []
  | x :: xs => pyRepr x :: pyReprList xs

/-- `repr` of each `key: value` binding of a JSON object. -/
def pyReprFields : List (String × Json) → List String
  | [] => []
  | (k, v) :: fs => ("'" ++ k ++ "': " ++ pyRepr v) :: pyReprFields fs

end

/-- Python `str()` of a JSON-decoded value, as applied by f-string
interpolation: strings are used verbatim, containers fall back to `repr`. -/
def pyStr : Json → String
  | .str s => s
  | j => pyRepr j

/-- Python's `s.upper()`, modelled as a character-wise map. -/
def pyUpper (s : String) : String :=
  ⟨s.data.map Char.toUpper⟩

/-- Python's `s.strip()`: drop whitespace from both ends. -/
def pyStrip (s : String) : String :=
  ⟨((s.data.dropWhile Char.isWhitespace).reverse.dropWhile Char.isWhitespace).reverse⟩

/-- Python's `s.lstrip()` (the remainder of `split(maxsplit=1)` strips the
separating whitespace run on its left). -/
def pyLStrip (s : String) : String :=
  ⟨s.data.dropWhile Char.isWhitespace⟩

/-- Drop the first `n` characters of a string. -/
def pyDrop (s : String) (n : Nat) : String :=
  ⟨s.data.drop n⟩

/-- `NWS_API_BASE` from weather.py. -/
def NWS_API_BASE : String := "https://api.weather.gov"

/-- The alerts endpoint `f"{NWS_API_BASE}/alerts/active/area/{state.upper()}"`. -/
def alertsUrl (state : String) : String :=
  NWS_API_BASE ++ "/alerts/active/area/" ++ pyUpper state

/-- The points-lookup endpoint `f"{NWS_API_BASE}/points/{lat},{lon}"` (the
rendering of the floats abstracts Python's float repr as `ratStr`). -/
def pointsUrl (lat lon : Rat) : String :=
  NWS_API_BASE ++ "/points/" ++ ratStr lat ++ "," ++ ratStr lon

/-- `_format_alert(feature)` from weather.py: reads
`feature.get("properties", {})` and formats the five labelled lines, with
placeholder defaults for missing fields.  Raises (`AttributeError`) exactly
when the Python original would, i.e. when `feature` or its `properties`
value is not a dict. -/
def formatAlert (feature : Json) : Except PyErr String :=
  match dictGet feature "properties" (.obj []) with
  | .error e => .error e
  | .ok (.obj pfs) =>
    .ok ("Event: " ++ pyStr (getD pfs "event" (.str "Unknown"))
      ++ "\nArea: " ++ pyStr (getD pfs "areaDesc" (.str "Unknown"))
      ++ "\nSeverity: " ++ pyStr (getD pfs "severity" (.str "Unknown"))
      ++ "\nDescription: " ++ pyStr (getD pfs "description" (.str "No description available"))
      ++ "\nInstructions: "
      ++ pyStr (getD pfs "instruction" (.str "No specific instructions provided")))
  | .ok _ => .error .attributeError

/-- The body of `get_alerts` after the fetch: `data` is `_get_json`'s result.
Mirrors

```
if not data or "features" not in data: return "Unable to fetch ..."
feats = data.get("features", [])
if not feats: return "No active alerts for this state."
return "\n\n---\n\n".join(_format_alert(f) for f in feats)
```

including the raising behaviour of `in` / `.get` / iteration on ill-shaped
JSON. -/
def alertsBody (data : Option Json) : Except PyErr String :=
  match data with
  | none => .ok "Unable to fetch alerts or invalid response."
  | some d =>
    if pyTruthy d = false then .ok "Unable to fetch alerts or invalid response."
    else
      match pyIn "features" d with
      | .error e => .error e
      | .ok hasFeats =>
        if hasFeats = false then .ok "Unable to fetch alerts or invalid response."
        else
          match dictGet d "features" (.arr []) with
          | .error e => .error e
          | .ok feats =>
            if pyTruthy feats = false then .ok "No active alerts for this state."
            else
              match feats with
              | .arr fs =>
                match fs.mapM formatAlert with
                | .error e => .error e
                | .ok blocks => .ok (String.intercalate "\n\n---\n\n" blocks)
              | .str _ => .error .attributeError
              | .obj _ => .error .attributeError
              | _ => .error .typeError

/-- `get_alerts(state)` from weather.py, with the network abstracted as
`env : url → Option Json` (the behaviour of `_get_json`, which swallows all
exceptions).  Returns the tool's result together with the list of URLs
fetched. -/
def get_alerts (env : String → Option Json) (state : String) :
    Except PyErr String × List String :=
  if state = "" ∨ state.length ≠ 2 then
    (.ok "Please provide a 2-letter US state/territory code (e.g., CA, NY).", [])
  else
    (alertsBody (env (alertsUrl state)), [alertsUrl state])

/-- Accumulate a digit string into a natural number. -/
def digitsToNat (cs : List Char) : Nat :=
  cs.foldl (fun a c => a * 10 + (c.toNat - 48)) 0

/-- Strip one optional leading sign, returning the sign as `±1`. -/
def parseSign : List Char → Int × List Char
  | '+' :: rest => (1, rest)
  | '-' :: rest => (-1, rest)
  | cs => (1, cs)

/-- The mantissa of a Python float literal, `digits [. digits]` or
`. digits` (a bare `.` or any stray character is rejected), returned as
the digit string's value together with the number of fractional digits. -/
def parseMantissa (cs : List Char) : Option (Nat × Nat) :=
  let ip := cs.takeWhile Char.isDigit
  let rest := cs.dropWhile Char.isDigit
  match rest with
  | [] => if ip.isEmpty then none else some (digitsToNat ip, 0)
  | '.' :: frac =>
    if frac.all Char.isDigit && !(ip.isEmpty && frac.isEmpty) then
      some (digitsToNat ip * 10 ^ frac.length + digitsToNat frac, frac.length)
    else none
  | _ => none

/-- The rational value `sgn * m * 10 ^ (ex - fracLen)` of a parsed float
literal, built with `mkRat` over integer arithmetic. -/
def pyFloatVal (sgn : Int) (m : Nat) (fracLen : Nat) (ex : Int) : Rat :=
  let e : Int := ex - (fracLen : Int)
  if 0 ≤ e then mkRat (sgn * ((m * 10 ^ e.toNat : Nat) : Int)) 1
  else mkRat (sgn * (m : Int)) (10 ^ (-e).toNat)

/-- Python's `float(s)` on a string: strip whitespace, optional sign,
decimal mantissa, optional `e`/`E` exponent.  Non-finite literals
(`inf`, `nan`) have no rational value and are outside this model; digit
group underscores are likewise not modelled. -/
def parsePyFloat (s : String) : Option Rat :=
  let cs := (pyStrip s).data
  let (sgn, cs1) := parseSign cs
  let (mant, expPart) := cs1.span (fun c => c != 'e' && c != 'E')
  match parseMantissa mant, expPart with
  | none, _ => none
  | some (m, fl), [] => some (pyFloatVal sgn m fl 0)
  | some (m, fl), _ :: ex =>
    let (esgn, ed) := parseSign ex
    if ed.isEmpty || !ed.all Char.isDigit then none
    else some (pyFloatVal sgn m fl (esgn * ((digitsToNat ed : Nat) : Int)))

/-- An argument as delivered to the `get_forecast` tool: already numeric, or
a string still to be coerced. -/
inductive PyVal where
  | num : Rat → PyVal
  | str : String → PyVal
deriving DecidableEq

/-- Python's `float(x)` as used in `get_forecast`: the identity on numbers,
`parsePyFloat` on strings, `none` meaning the coercion raises. -/
def coerceFloat : PyVal → Option Rat
  | .num x => some x
  | .str s => parsePyFloat s

/-- One line of `get_forecast`'s loop body:
`f"{name}: {short} ({temp}Â°{unit}) Wind {wind}"` with the per-field
placeholder defaults.  The source file literally contains the two
characters U+00C2 U+00B0 (mojibake) between temperature and unit.
Raises `AttributeError` exactly when `p` is not a dict. -/
def formatPeriod (p : Json) : Except PyErr String :=
  match p with
  | .obj pfs =>
    .ok (pyStr (getD pfs "name" (.str "Period")) ++ ": "
      ++ pyStr (getD pfs "shortForecast" (.str "n/a")) ++ " ("
      ++ pyStr (getD pfs "temperature" (.str "n/a")) ++ "Â°"
      ++ pyStr (getD pfs "temperatureUnit" (.str "")) ++ ") Wind "
      ++ pyStr (getD pfs "windSpeed" (.str "")))
  | _ => .error .attributeError

/-- The tail of `get_forecast` once the second fetch has returned `fc`:

```
if not fc or "properties" not in fc or "periods" not in fc["properties"]:
    return "Unable to fetch forecast periods."
periods = fc["properties"]["periods"][:4]
... one formatted line per period ...
return "\n".join(lines)
```

including the raising behaviour of subscripts, slices and iteration on
ill-shaped JSON. -/
def forecastBody (fc : Option Json) : Except PyErr String :=
  match fc with
  | none => .ok "Unable to fetch forecast periods."
  | some f =>
    if pyTruthy f = false then .ok "Unable to fetch forecast periods."
    else
      match pyIn "properties" f with
      | .error e => .error e
      | .ok hasProps =>
        if hasProps = false then .ok "Unable to fetch forecast periods."
        else
          match subscript f "properties" with
          | .error e => .error e
          | .ok props =>
            match pyIn "periods" props with
            | .error e => .error e
            | .ok hasPeriods =>
              if hasPeriods = false then .ok "Unable to fetch forecast periods."
              else
                match subscript props "periods" with
                | .error e => .error e
                | .ok periodsVal =>
                  match periodsVal with
                  | .arr ps =>
                    match (ps.take 4).mapM formatPeriod with
                    | .error e => .error e
                    | .ok lines => .ok (String.intercalate "\n" lines)
                  | .str s =>
                    if s.isEmpty then .ok "" else .error .attributeError
                  | _ => .error .typeError

/-- `get_forecast(latitude, longitude)` from weather.py, with the network
abstracted as `env : url → Option Json`.  Returns the tool's result with
the list of URLs fetched.  The rendering of the coerced floats inside
`points_url` abstracts Python's float repr as `ratStr`; when the resolved
`forecast_url` is not a string, `client.get` raises inside `_get_json`'s
`try`, so the second fetch yields `None` without any request being sent. -/
def get_forecast (env : String → Option Json) (latitude longitude : PyVal) :
    Except PyErr String × List String :=
  match coerceFloat latitude with
  | none => (.ok "Invalid latitude/longitude.", [])
  | some lat =>
    match coerceFloat longitude with
    | none => (.ok "Invalid latitude/longitude.", [])
    | some lon =>
      match env (pointsUrl lat lon) with
      | none =>
        (.ok "Unable to resolve grid forecast URL for this location.", [pointsUrl lat lon])
      | some points =>
        if pyTruthy points = false then
          (.ok "Unable to resolve grid forecast URL for this location.", [pointsUrl lat lon])
        else
          match pyIn "properties" points with
          | .error e => (.error e, [pointsUrl lat lon])
          | .ok false =>
            (.ok "Unable to resolve grid forecast URL for this location.", [pointsUrl lat lon])
          | .ok true =>
            match subscript points "properties" with
            | .error e => (.error e, [pointsUrl lat lon])
            | .ok props =>
              match pyIn "forecast" props with
              | .error e => (.error e, [pointsUrl lat lon])
              | .ok false =>
                (.ok "Unable to resolve grid forecast URL for this location.",
                  [pointsUrl lat lon])
              | .ok true =>
                match subscript props "forecast" with
                | .error e => (.error e, [pointsUrl lat lon])
                | .ok fUrl =>
                  match fUrl with
                  | .str u => (forecastBody (env u), [pointsUrl lat lon, u])
                  | _ => (forecastBody none, [pointsUrl lat lon])

/-! ## The client REPL (src/mcp-client/client.py, loop body of `main`) -/

/-- A tool invocation issued through `session.call_tool`. -/
inductive ToolCall where
  | alerts : String → ToolCall
  | forecast : Rat → Rat → ToolCall
deriving DecidableEq

/-- The client's loop state: reading the next line, or out of the loop. -/
inductive ClientState where
  | awaitingInput : ClientState
  | closed : ClientState
deriving DecidableEq

/-- One event consumed by the loop: a line from `input()`, or the
`EOFError` / `KeyboardInterrupt` it may raise. -/
inductive InputEvent where
  | line : String → InputEvent
  | eof : InputEvent
  | interrupt : InputEvent
deriving DecidableEq

/-- The observable effect of one loop iteration: the state the loop is in
afterwards, what was printed, and which tool calls were issued. -/
structure StepResult where
  next : ClientState
  outputs : List String
  calls : List ToolCall
deriving DecidableEq

/-- Accumulator-based splitter behind `pyWords` (the accumulator holds the
current word reversed). -/
def pyWordsAux : List Char → List Char → List String
  | [], acc => if acc.isEmpty then [] else [⟨acc.reverse⟩]
  | c :: cs, acc =>
    if c.isWhitespace then
      if acc.isEmpty then pyWordsAux cs []
      else (⟨acc.reverse⟩ : String) :: pyWordsAux cs []
    else pyWordsAux cs (c :: acc)

/-- Python's `s.split()`: split on whitespace runs, dropping empty pieces. -/
def pyWords (s : String) : List String :=
  pyWordsAux s.data []

/-- Python's `s.startswith(pre)`, modelled on the character lists. -/
def pyStartsWith (s pre : String) : Bool :=
  pre.data.isPrefixOf s.data

/-- Python's `s.lower()`, modelled as a character-wise map (the commands
compared against are ASCII). -/
def pyLower (s : String) : String :=
  ⟨s.data.map Char.toLower⟩

/-- The `try` block of the loop body, on an already stripped, non-empty,
non-quit line `q`.  `oracle` models `await session.call_tool(...)` followed
by `res.content[0].text`; its `.error` case is any exception raised there.
Returns the tool calls issued and either the lines printed or the raised
error's message.  For an `alerts ` line, `q.split(maxsplit=1)[1]` is the
rest of the line after the first whitespace run, i.e. `pyLStrip (pyDrop q 7)`
since `q` is stripped; there is no arity check on that branch.  A failing
`float(...)` raises `ValueError: could not convert string to float: '...'`. -/
def dispatchCmd (oracle : ToolCall → Except String String) (q : String) :
    List ToolCall × Except String (List String) :=
  if pyStartsWith q "alerts " then
    let st := pyLStrip (pyDrop q 7)
    match oracle (.alerts st) with
    | .ok text => ([.alerts st], .ok [text])
    | .error e => ([.alerts st], .error e)
  else if pyStartsWith q "forecast " then
    let parts := pyWords q
    if parts.length ≠ 3 then ([], .ok ["Usage: forecast <LAT> <LON>"])
    else
      match parsePyFloat (parts.getD 1 "") with
      | none => ([], .error ("could not convert string to float: '" ++ parts.getD 1 "" ++ "'"))
      | some lat =>
        match parsePyFloat (parts.getD 2 "") with
        | none => ([], .error ("could not convert string to float: '" ++ parts.getD 2 "" ++ "'"))
        | some lon =>
          match oracle (.forecast lat lon) with
          | .ok text => ([.forecast lat lon], .ok [text])
          | .error e => ([.forecast lat lon], .error e)
  else ([], .ok ["Unknown command. Try: alerts CA  |  forecast 37.78 -122.42"])

/-- One iteration of the client loop: strip the line, skip empty input,
`quit` (case-insensitive) leaves the loop, anything else is dispatched with
every dispatch error caught and printed as `Error: <message>`.  End of
input and keyboard interrupt also leave the loop. -/
def clientStep (oracle : ToolCall → Except String String) (ev : InputEvent) : StepResult :=
  match ev with
  | .eof => ⟨.closed, [], []⟩
  | .interrupt => ⟨.closed, [], []⟩
  | .line s =>
    let q := pyStrip s
    if q = "" then ⟨.awaitingInput, [], []⟩
    else if pyLower q = "quit" then ⟨.closed, [], []⟩
    else
      match dispatchCmd oracle q with
      | (calls, .ok outs) => ⟨.awaitingInput, outs, calls⟩
      | (calls, .error e) => ⟨.awaitingInput, ["Error: " ++ e], calls⟩

/-- A tool oracle answering every call with the canned text `"ok"`, used to
instantiate theorems quantified over oracles. -/
def okOracle : ToolCall → Except String String := fun _ => .ok "ok"

/-- A network where every fetch fails (`_get_json` returns `None`). -/
def emptyEnv : String → Option Json := fun _ => none

/-! ## Helper lemmas -/

lemma get_alerts_valid (env : String → Option Json) (state : String)
    (hs : state.length = 2) :
    get_alerts env state = (alertsBody (env (alertsUrl state)), [alertsUrl state]) := by
  unfold get_alerts
  rw [if_neg]
  rintro (rfl | h)
  · exact absurd hs (by decide)
  · exact h hs

lemma any_key_false {fs : List (String × Json)} {k : String}
    (h : fs.find? (fun p => p.1 == k) = none) :
    fs.any (fun p => p.1 == k) = false := by
  rw [Bool.eq_false_iff]
  intro hc
  obtain ⟨x, hx, hpx⟩ := List.any_eq_true.mp hc
  exact absurd hpx (by simpa using List.find?_eq_none.mp h x hx)

lemma any_key_true {fs : List (String × Json)} {k : String} {a : String × Json}
    (h : fs.find? (fun p => p.1 == k) = some a) :
    fs.any (fun p => p.1 == k) = true := by
  have h1 := List.find?_some h
  have h2 := List.mem_of_find?_eq_some h
  exact List.any_eq_true.mpr ⟨a, h2, h1⟩

lemma isEmpty_false_of_find? {fs : List (String × Json)} {k : String} {a : String × Json}
    (h : fs.find? (fun p => p.1 == k) = some a) :
    fs.isEmpty = false := by
  cases fs with
  | nil => simp at h
  | cons b l => rfl

lemma getD_of_find? {fs : List (String × Json)} {k : String} {a : String × Json}
    (dflt : Json) (h : fs.find? (fun p => p.1 == k) = some a) :
    getD fs k dflt = a.2 := by
  simp [getD, h]

lemma getD_of_find?_none {fs : List (String × Json)} {k : String}
    (dflt : Json) (h : fs.find? (fun p => p.1 == k) = none) :
    getD fs k dflt = dflt := by
  simp [getD, h]

lemma mapM_ok {α β ε : Type} (g : α → Except ε β) (l : List α)
    (h : ∀ a ∈ l, ∃ b, g a = .ok b) :
    ∃ bs, l.mapM g = .ok bs ∧ bs.length = l.length := by
  induction l with
  | nil => exact ⟨[], rfl, rfl⟩
  | cons a l ih =>
    obtain ⟨b, hb⟩ := h a (List.mem_cons_self a l)
    obtain ⟨bs, hbs, hlen⟩ := ih (fun x hx => h x (List.mem_cons_of_mem _ hx))
    refine ⟨b :: bs, ?_, by simp [hlen]⟩
    simp only [List.mapM_cons, hb, hbs]
    rfl

/-! ## Claims about `get_alerts` -/

/-- Claim C3: for every state-code input whose length is not 2 (including
the empty string), `get_alerts` returns the fixed guidance string and
performs no HTTP request. -/
theorem get_alerts_rejects_bad_length (env : String → Option Json) (state : String)
    (h : state.length ≠ 2) :
    get_alerts env state =
      (.ok "Please provide a 2-letter US state/territory code (e.g., CA, NY).", []) := by
  unfold get_alerts
  rw [if_pos (Or.inr h)]

/-- Witness for C3 at the inputs `"CAL"` and `""` with a dead network. -/
theorem get_alerts_rejects_bad_length_witness :
    (("CAL".length ≠ 2) ∧
      get_alerts emptyEnv "CAL" =
        (.ok "Please provide a 2-letter US state/territory code (e.g., CA, NY).", [])) ∧
    (("".length ≠ 2) ∧
      get_alerts emptyEnv "" =
        (.ok "Please provide a 2-letter US state/territory code (e.g., CA, NY).", [])) :=
  ⟨⟨by decide, get_alerts_rejects_bad_length emptyEnv "CAL" (by decide)⟩,
   ⟨by decide, get_alerts_rejects_bad_length emptyEnv "" (by decide)⟩⟩

/-- Claim C6: a successful alerts fetch whose JSON has a `"features"` key
holding the empty list yields exactly the fixed "no active alerts" string,
while a fetch where `_get_json` returns no data (or returns falsy data, or
an object without the `"features"` key) yields the generic "unable to
fetch" string. -/
theorem get_alerts_no_features (env : String → Option Json) (state : String)
    (hs : state.length = 2) :
    (env (alertsUrl state) = none →
      get_alerts env state =
        (.ok "Unable to fetch alerts or invalid response.", [alertsUrl state])) ∧
    (∀ d, env (alertsUrl state) = some d → pyTruthy d = false →
      get_alerts env state =
        (.ok "Unable to fetch alerts or invalid response.", [alertsUrl state])) ∧
    (∀ fs, env (alertsUrl state) = some (.obj fs) →
      fs.find? (fun p => p.1 == "features") = none →
      get_alerts env state =
        (.ok "Unable to fetch alerts or invalid response.", [alertsUrl state])) ∧
    (∀ fs k, env (alertsUrl state) = some (.obj fs) →
      fs.find? (fun p => p.1 == "features") = some (k, .arr []) →
      get_alerts env state =
        (.ok "No active alerts for this state.", [alertsUrl state])) := by
  refine ⟨?_, ?_, ?_, ?_⟩
  · intro h
    rw [get_alerts_valid env state hs, h]
    rfl
  · intro d h hfalsy
    rw [get_alerts_valid env state hs, h]
    simp [alertsBody, hfalsy]
  · intro fs h hfind
    rw [get_alerts_valid env state hs, h]
    by_cases ht : pyTruthy (.obj fs) = false
    · simp [alertsBody, ht]
    · simp [alertsBody, ht, pyIn, any_key_false hfind]
  · intro fs k h hfind
    rw [get_alerts_valid env state hs, h]
    simp [alertsBody, pyTruthy, isEmpty_false_of_find? hfind, pyIn,
      any_key_true hfind, dictGet, getD, hfind]

/-- Witness for C6 at state `"CA"`, exercising all four premises with four
concrete environments. -/
theorem get_alerts_no_features_witness :
    (emptyEnv (alertsUrl "CA") = none ∧
      get_alerts emptyEnv "CA" =
        (.ok "Unable to fetch alerts or invalid response.", [alertsUrl "CA"])) ∧
    (pyTruthy (.obj []) = false ∧
      get_alerts (fun _ => some (.obj [])) "CA" =
        (.ok "Unable to fetch alerts or invalid response.", [alertsUrl "CA"])) ∧
    (get_alerts (fun _ => some (.obj [("title", .str "x")])) "CA" =
      (.ok "Unable to fetch alerts or invalid response.", [alertsUrl "CA"])) ∧
    (get_alerts (fun _ => some (.obj [("features", .arr [])])) "CA" =
      (.ok "No active alerts for this state.", [alertsUrl "CA"])) :=
  ⟨⟨rfl, (get_alerts_no_features emptyEnv "CA" rfl).1 rfl⟩,
   ⟨rfl, (get_alerts_no_features (fun _ => some (.obj [])) "CA" rfl).2.1 _ rfl rfl⟩,
   (get_alerts_no_features (fun _ => some (.obj [("title", .str "x")])) "CA" rfl).2.2.1
     _ rfl rfl,
   (get_alerts_no_features (fun _ => some (.obj [("features", .arr [])])) "CA" rfl).2.2.2
     _ _ rfl rfl⟩

/-- Claim C10: when a successful alerts fetch returns an object whose
`"features"` key is present but holds a falsy value (e.g. `null`),
`get_alerts` returns the same "no active alerts" string as for a genuine
empty feature list, rather than reporting a malformed response. -/
theorem get_alerts_falsy_features (env : String → Option Json) (state : String)
    (hs : state.length = 2) (fs : List (String × Json)) (k : String) (v : Json)
    (hd : env (alertsUrl state) = some (.obj fs))
    (hfind : fs.find? (fun p => p.1 == "features") = some (k, v))
    (hfalsy : pyTruthy v = false) :
    get_alerts env state = (.ok "No active alerts for this state.", [alertsUrl state]) := by
  rw [get_alerts_valid env state hs, hd]
  have ht : pyTruthy (Json.obj fs) = true := by
    simp [pyTruthy, isEmpty_false_of_find? hfind]
  simp [alertsBody, ht, pyIn, any_key_true hfind, dictGet, getD, hfind, hfalsy]

/-- Witness for C10: the `"features"` key holds `null`. -/
theorem get_alerts_falsy_features_witness :
    ((fun _ => some (Json.obj [("features", Json.null)]) : String → Option Json)
        (alertsUrl "CA") = some (.obj [("features", Json.null)]) ∧
      pyTruthy Json.null = false) ∧
    get_alerts (fun _ => some (.obj [("features", Json.null)])) "CA" =
      (.ok "No active alerts for this state.", [alertsUrl "CA"]) :=
  ⟨⟨rfl, rfl⟩,
    get_alerts_falsy_features (fun _ => some (.obj [("features", Json.null)])) "CA" rfl
      _ "features" Json.null rfl rfl rfl⟩

lemma formatAlert_obj (ffs pfs : List (String × Json))
    (h : getD ffs "properties" (.obj []) = .obj pfs) :
    formatAlert (.obj ffs) = .ok
      ("Event: " ++ pyStr (getD pfs "event" (.str "Unknown"))
        ++ "\nArea: " ++ pyStr (getD pfs "areaDesc" (.str "Unknown"))
        ++ "\nSeverity: " ++ pyStr (getD pfs "severity" (.str "Unknown"))
        ++ "\nDescription: " ++ pyStr (getD pfs "description" (.str "No description available"))
        ++ "\nInstructions: "
        ++ pyStr (getD pfs "instruction" (.str "No specific instructions provided"))) := by
  simp [formatAlert, dictGet, h]

/-- Claim C1: a successful alerts fetch whose JSON object carries a
non-empty `"features"` list of well-formed feature objects yields the N
formatted blocks joined by the fixed separator `"\n\n---\n\n"`, each block
being the five labelled lines Event, Area, Severity, Description,
Instructions in that order, with missing fields replaced by their
placeholder texts. -/
theorem get_alerts_formats_features (env : String → Option Json) (state : String)
    (hs : state.length = 2) (dfs : List (String × Json)) (k : String) (feats : List Json)
    (hd : env (alertsUrl state) = some (.obj dfs))
    (hfind : dfs.find? (fun p => p.1 == "features") = some (k, .arr feats))
    (hne : feats ≠ [])
    (hwf : ∀ f ∈ feats, ∃ ffs pfs, f = Json.obj ffs ∧
      getD ffs "properties" (.obj []) = .obj pfs) :
    ∃ blocks, feats.mapM formatAlert = .ok blocks ∧
      blocks.length = feats.length ∧
      get_alerts env state =
        (.ok (String.intercalate "\n\n---\n\n" blocks), [alertsUrl state]) ∧
      ∀ ffs pfs, getD ffs "properties" (.obj []) = .obj pfs →
        formatAlert (.obj ffs) = .ok
          ("Event: " ++ pyStr (getD pfs "event" (.str "Unknown"))
            ++ "\nArea: " ++ pyStr (getD pfs "areaDesc" (.str "Unknown"))
            ++ "\nSeverity: " ++ pyStr (getD pfs "severity" (.str "Unknown"))
            ++ "\nDescription: "
            ++ pyStr (getD pfs "description" (.str "No description available"))
            ++ "\nInstructions: "
            ++ pyStr (getD pfs "instruction" (.str "No specific instructions provided"))) := by
  have hblocks : ∀ f ∈ feats, ∃ b, formatAlert f = .ok b := by
    intro f hf
    obtain ⟨ffs, pfs, rfl, hp⟩ := hwf f hf
    exact ⟨_, formatAlert_obj ffs pfs hp⟩
  obtain ⟨blocks, hbs, hlen⟩ := mapM_ok formatAlert feats hblocks
  refine ⟨blocks, hbs, hlen, ?_, fun ffs pfs hp => formatAlert_obj ffs pfs hp⟩
  rw [get_alerts_valid env state hs, hd]
  have ht : pyTruthy (Json.obj dfs) = true := by
    simp [pyTruthy, isEmpty_false_of_find? hfind]
  have hta : pyTruthy (Json.arr feats) = true := by
    cases feats with
    | nil => exact absurd rfl hne
    | cons a l => rfl
  have hbs' : List.mapM.loop formatAlert feats [] = Except.ok blocks := hbs
  simp [alertsBody, ht, pyIn, any_key_true hfind, dictGet, getD, hfind, hta, hbs, hbs']

/-- The two-feature alerts payload used to instantiate C1: one feature with
an `event` field, one bare feature exercising every placeholder. -/
def wfeats : List Json :=
  [.obj [("properties", .obj [("event", .str "Flood Warning")])], .obj []]

/-- A network returning the C1 witness payload for every URL. -/
def alertsEnvW : String → Option Json := fun _ =>
  some (.obj [("features", .arr wfeats)])

/-- Witness for C1 at state `"CA"` and a concrete two-feature payload. -/
theorem get_alerts_formats_features_witness :
    (("CA" : String).length = 2 ∧
      alertsEnvW (alertsUrl "CA") = some (.obj [("features", .arr wfeats)]) ∧
      List.find? (fun p => p.1 == "features") [("features", Json.arr wfeats)] =
        some ("features", .arr wfeats) ∧
      wfeats ≠ []) ∧
    (∃ blocks, wfeats.mapM formatAlert = .ok blocks ∧
      blocks.length = wfeats.length ∧
      get_alerts alertsEnvW "CA" =
        (.ok (String.intercalate "\n\n---\n\n" blocks), [alertsUrl "CA"]) ∧
      ∀ ffs pfs, getD ffs "properties" (.obj []) = .obj pfs →
        formatAlert (.obj ffs) = .ok
          ("Event: " ++ pyStr (getD pfs "event" (.str "Unknown"))
            ++ "\nArea: " ++ pyStr (getD pfs "areaDesc" (.str "Unknown"))
            ++ "\nSeverity: " ++ pyStr (getD pfs "severity" (.str "Unknown"))
            ++ "\nDescription: "
            ++ pyStr (getD pfs "description" (.str "No description available"))
            ++ "\nInstructions: "
            ++ pyStr (getD pfs "instruction" (.str "No specific instructions provided")))) :=
  ⟨⟨rfl, rfl, rfl, by simp [wfeats]⟩,
    get_alerts_formats_features alertsEnvW "CA" rfl _ "features" wfeats rfl rfl
      (by simp [wfeats])
      (by
        intro f hf
        simp only [wfeats, List.mem_cons, List.mem_singleton] at hf
        rcases hf with rfl | rfl | hf
        · exact ⟨_, [("event", .str "Flood Warning")], rfl, rfl⟩
        · exact ⟨[], [], rfl, rfl⟩
        · exact absurd hf (List.not_mem_nil f))⟩

/-! ## Claims about `get_forecast` -/

lemma get_forecast_eq_num (env : String → Option Json) {la lo : PyVal} {x y : Rat}
    (hla : coerceFloat la = some x) (hlo : coerceFloat lo = some y) :
    get_forecast env la lo = get_forecast env (.num x) (.num y) := by
  unfold get_forecast
  rw [hla, hlo]
  rfl

/-- Claim C9: `get_forecast` coerces both arguments to floating point
before any fetch: if either coercion fails it returns the fixed
"Invalid latitude/longitude." message with no HTTP request (rather than
raising), and when both coercions succeed its behaviour depends only on
the coerced numeric values. -/
theorem get_forecast_coerces_first :
    (∀ (env : String → Option Json) (la lo : PyVal),
      coerceFloat la = none ∨ coerceFloat lo = none →
      get_forecast env la lo = (.ok "Invalid latitude/longitude.", [])) ∧
    (∀ (env : String → Option Json) (la lo : PyVal) (x y : Rat),
      coerceFloat la = some x → coerceFloat lo = some y →
      get_forecast env la lo = get_forecast env (.num x) (.num y)) := by
  constructor
  · intro env la lo h
    rcases h with h | h
    · simp [get_forecast, h]
    · cases hla : coerceFloat la with
      | none => simp [get_forecast, hla]
      | some x => simp [get_forecast, hla, h]
  · intro env la lo x y hla hlo
    exact get_forecast_eq_num env hla hlo

/-- Witness for C9: the stringly-typed pair `("abc", 2)` fails coercion and
gets the fixed message with no fetch; the pair `("37.78", "2")` coerces and
behaves like the numeric pair. -/
theorem get_forecast_coerces_first_witness :
    ((coerceFloat (.str "abc") = none ∨ coerceFloat (.num 2) = none) ∧
      get_forecast emptyEnv (.str "abc") (.num 2) =
        (.ok "Invalid latitude/longitude.", [])) ∧
    (coerceFloat (.str "37.78") = some (mkRat 3778 100) ∧
      coerceFloat (.str "2") = some (mkRat 2 1) ∧
      get_forecast emptyEnv (.str "37.78") (.str "2") =
        get_forecast emptyEnv (.num (mkRat 3778 100)) (.num (mkRat 2 1))) :=
  ⟨⟨Or.inl rfl,
      get_forecast_coerces_first.1 emptyEnv (.str "abc") (.num 2) (Or.inl rfl)⟩,
    ⟨by decide, by decide,
      get_forecast_coerces_first.2 emptyEnv (.str "37.78") (.str "2")
        (mkRat 3778 100) (mkRat 2 1) (by decide) (by decide)⟩⟩

lemma forecastBody_failure (fc : Option Json)
    (h : fc = none ∨ (∃ j, fc = some j ∧ pyTruthy j = false) ∨
      (∃ ffs, fc = some (.obj ffs) ∧
        ffs.find? (fun q => q.1 == "properties") = none) ∨
      (∃ ffs k fprps, fc = some (.obj ffs) ∧
        ffs.find? (fun q => q.1 == "properties") = some (k, .obj fprps) ∧
        fprps.find? (fun q => q.1 == "periods") = none)) :
    forecastBody fc = .ok "Unable to fetch forecast periods." := by
  rcases h with rfl | ⟨j, rfl, hf⟩ | ⟨ffs, rfl, hfind⟩ | ⟨ffs, k, fprps, rfl, h1, h2⟩
  · rfl
  · simp [forecastBody, hf]
  · by_cases ht : pyTruthy (.obj ffs) = false
    · simp [forecastBody, ht]
    · simp [forecastBody, ht, pyIn, any_key_false hfind]
  · have ht : pyTruthy (Json.obj ffs) = true := by
      simp [pyTruthy, isEmpty_false_of_find? h1]
    simp [forecastBody, ht, pyIn, any_key_true h1, subscript, h1, any_key_false h2]

/-- Claim C4: with both coordinates coerced, a failing or ill-shaped points
lookup makes `get_forecast` return the "unable to resolve" string having
fetched only the points URL (the second fetch never happens), while a
resolved forecast URL whose own fetch fails or is ill-shaped yields the
distinct "unable to fetch forecast periods" string. -/
theorem get_forecast_two_step_failures (env : String → Option Json) (la lo : PyVal)
    (x y : Rat) (hla : coerceFloat la = some x) (hlo : coerceFloat lo = some y) :
    ((env (pointsUrl x y) = none ∨
      (∃ p, env (pointsUrl x y) = some p ∧ pyTruthy p = false) ∨
      (∃ pfs, env (pointsUrl x y) = some (.obj pfs) ∧
        pfs.find? (fun q => q.1 == "properties") = none) ∨
      (∃ pfs k prps, env (pointsUrl x y) = some (.obj pfs) ∧
        pfs.find? (fun q => q.1 == "properties") = some (k, .obj prps) ∧
        prps.find? (fun q => q.1 == "forecast") = none)) →
      get_forecast env la lo =
        (.ok "Unable to resolve grid forecast URL for this location.",
          [pointsUrl x y])) ∧
    (∀ pfs k prps k2 u, env (pointsUrl x y) = some (.obj pfs) →
      pfs.find? (fun q => q.1 == "properties") = some (k, .obj prps) →
      prps.find? (fun q => q.1 == "forecast") = some (k2, .str u) →
      (env u = none ∨ (∃ fc, env u = some fc ∧ pyTruthy fc = false) ∨
        (∃ ffs, env u = some (.obj ffs) ∧
          ffs.find? (fun q => q.1 == "properties") = none) ∨
        (∃ ffs k3 fprps, env u = some (.obj ffs) ∧
          ffs.find? (fun q => q.1 == "properties") = some (k3, .obj fprps) ∧
          fprps.find? (fun q => q.1 == "periods") = none)) →
      get_forecast env la lo =
        (.ok "Unable to fetch forecast periods.", [pointsUrl x y, u])) := by
  constructor
  · intro h
    rw [get_forecast_eq_num env hla hlo]
    rcases h with henv | ⟨p, henv, hf⟩ | ⟨pfs, henv, hfind⟩ | ⟨pfs, k, prps, henv, h1, h2⟩
    · simp [get_forecast, coerceFloat, henv]
    · simp [get_forecast, coerceFloat, henv, hf]
    · by_cases ht : pyTruthy (.obj pfs) = false
      · simp [get_forecast, coerceFloat, henv, ht]
      · simp [get_forecast, coerceFloat, henv, ht, pyIn, any_key_false hfind]
    · have ht : pyTruthy (Json.obj pfs) = true := by
        simp [pyTruthy, isEmpty_false_of_find? h1]
      simp [get_forecast, coerceFloat, henv, ht, pyIn, any_key_true h1, subscript, h1,
        any_key_false h2]
  · intro pfs k prps k2 u henv h1 h2 hsnd
    rw [get_forecast_eq_num env hla hlo]
    have ht : pyTruthy (Json.obj pfs) = true := by
      simp [pyTruthy, isEmpty_false_of_find? h1]
    simp [get_forecast, coerceFloat, henv, ht, pyIn, any_key_true h1, subscript, h1,
      any_key_true h2, h2, forecastBody_failure (env u) hsnd]

/-- A points response resolving to the fixed test forecast URL. -/
def wpoints : Json :=
  .obj [("properties", .obj [("forecast", .str "https://api.weather.gov/gridpoints/TEST")])]

/-- A network for the C4 witness: the points lookup resolves but the
forecast fetch fails. -/
def forecastEnvFail : String → Option Json := fun url =>
  if url = pointsUrl 1 2 then some wpoints else none

/-- Witness for C4: a dead network hits the first failure; a network that
only answers the points lookup hits the second. -/
theorem get_forecast_two_step_failures_witness :
    (coerceFloat (.num 1) = some 1 ∧ coerceFloat (.num 2) = some 2 ∧
      emptyEnv (pointsUrl 1 2) = none ∧
      get_forecast emptyEnv (.num 1) (.num 2) =
        (.ok "Unable to resolve grid forecast URL for this location.",
          [pointsUrl 1 2])) ∧
    (forecastEnvFail (pointsUrl 1 2) = some wpoints ∧
      forecastEnvFail "https://api.weather.gov/gridpoints/TEST" = none ∧
      get_forecast forecastEnvFail (.num 1) (.num 2) =
        (.ok "Unable to fetch forecast periods.",
          [pointsUrl 1 2, "https://api.weather.gov/gridpoints/TEST"])) :=
  ⟨⟨rfl, rfl, rfl,
      (get_forecast_two_step_failures emptyEnv (.num 1) (.num 2) 1 2 rfl rfl).1
        (Or.inl rfl)⟩,
    ⟨rfl, rfl,
      (get_forecast_two_step_failures forecastEnvFail (.num 1) (.num 2) 1 2 rfl rfl).2
        _ "properties" _ "forecast" _ rfl rfl rfl (Or.inl rfl)⟩⟩

/-- Claim C5 (amended): on a fully successful forecast, `get_forecast`
returns at most 4 newline-joined lines, one per period in order (periods
beyond the first 4 are truncated), each line in the fixed format
`name: shortForecast (temperatureÂ°unit) Wind windSpeed` — where the
separator between temperature and unit is the two-character mojibake
sequence U+00C2 U+00B0 found in the source, not a bare degree sign — with
per-field placeholders for missing fields. -/
theorem get_forecast_success_format (env : String → Option Json) (la lo : PyVal)
    (x y : Rat) (hla : coerceFloat la = some x) (hlo : coerceFloat lo = some y)
    (pfs prps : List (String × Json)) (k k2 : String) (u : String)
    (hp : env (pointsUrl x y) = some (.obj pfs))
    (h1 : pfs.find? (fun q => q.1 == "properties") = some (k, .obj prps))
    (h2 : prps.find? (fun q => q.1 == "forecast") = some (k2, .str u))
    (ffs fprps : List (String × Json)) (k3 k4 : String) (ps : List Json)
    (hf : env u = some (.obj ffs))
    (h3 : ffs.find? (fun q => q.1 == "properties") = some (k3, .obj fprps))
    (h4 : fprps.find? (fun q => q.1 == "periods") = some (k4, .arr ps))
    (hwf : ∀ p ∈ ps.take 4, ∃ qfs, p = Json.obj qfs) :
    ∃ lines, (ps.take 4).mapM formatPeriod = .ok lines ∧
      lines.length = (ps.take 4).length ∧ lines.length ≤ 4 ∧
      get_forecast env la lo =
        (.ok (String.intercalate "\n" lines), [pointsUrl x y, u]) ∧
      ∀ qfs, formatPeriod (.obj qfs) = .ok
        (pyStr (getD qfs "name" (.str "Period")) ++ ": "
          ++ pyStr (getD qfs "shortForecast" (.str "n/a")) ++ " ("
          ++ pyStr (getD qfs "temperature" (.str "n/a")) ++ "Â°"
          ++ pyStr (getD qfs "temperatureUnit" (.str "")) ++ ") Wind "
          ++ pyStr (getD qfs "windSpeed" (.str ""))) := by
  have hlines : ∀ p ∈ ps.take 4, ∃ b, formatPeriod p = .ok b := by
    intro p hp2
    obtain ⟨qfs, rfl⟩ := hwf p hp2
    exact ⟨_, rfl⟩
  obtain ⟨lines, hls, hlen⟩ := mapM_ok formatPeriod (ps.take 4) hlines
  have hle : lines.length ≤ 4 := by
    rw [hlen]
    exact List.length_take_le 4 ps
  refine ⟨lines, hls, hlen, hle, ?_, fun qfs => rfl⟩
  rw [get_forecast_eq_num env hla hlo]
  have ht1 : pyTruthy (Json.obj pfs) = true := by
    simp [pyTruthy, isEmpty_false_of_find? h1]
  have ht2 : pyTruthy (Json.obj ffs) = true := by
    simp [pyTruthy, isEmpty_false_of_find? h3]
  have hls' : List.mapM.loop formatPeriod (ps.take 4) [] = Except.ok lines := hls
  simp [get_forecast, coerceFloat, hp, ht1, pyIn, any_key_true h1, subscript, h1,
    any_key_true h2, h2, hf, forecastBody, ht2, any_key_true h3, h3,
    any_key_true h4, h4, hls, hls']

/-- A single fully-populated forecast period. -/
def wperiodFull : Json :=
  .obj [("name", .str "Today"), ("shortForecast", .str "Sunny"),
    ("temperature", .str "56"), ("temperatureUnit", .str "F"),
    ("windSpeed", .str "5 mph")]

/-- A payload serving both as points response (with a `forecast` URL) and
as forecast response (with one period). -/
def wforecast1 : Json :=
  .obj [("properties", .obj
    [("forecast", .str "https://api.weather.gov/gridpoints/TEST"),
     ("periods", .arr [wperiodFull])])]

/-- A network answering every URL with the one-period payload. -/
def forecastEnvW : String → Option Json := fun _ => some wforecast1

/-- Counterexample to C5 as stated: the code's period line carries the
mojibake pair U+00C2 U+00B0 between temperature and unit, so it is not of
the claimed form `name: shortForecast (temperature°unit) Wind windSpeed`
with a bare U+00B0 degree sign. -/
theorem get_forecast_degree_cex :
    (get_forecast forecastEnvW (.num 1) (.num 2)).1 =
      .ok ("Today: Sunny (56" ++ "Â°" ++ "F) Wind 5 mph") ∧
    (get_forecast forecastEnvW (.num 1) (.num 2)).1 ≠
      .ok ("Today: Sunny (56" ++ "°" ++ "F) Wind 5 mph") := by
  constructor
  · rfl
  · intro h
    rw [show (get_forecast forecastEnvW (.num 1) (.num 2)).1 =
        Except.ok ("Today: Sunny (56" ++ "Â°" ++ "F) Wind 5 mph") from rfl] at h
    exact absurd (Except.ok.inj h) (by decide)

/-- The five periods of the C5 witness payload (one beyond the cut). -/
def wperiods5 : List Json :=
  [.obj [("name", .str "P1")], .obj [("name", .str "P2")], .obj [("name", .str "P3")],
    .obj [("name", .str "P4")], .obj [("name", .str "P5")]]

/-- A combined points/forecast payload with five periods. -/
def wforecast5 : Json :=
  .obj [("properties", .obj
    [("forecast", .str "https://api.weather.gov/gridpoints/TEST"),
     ("periods", .arr wperiods5)])]

/-- A network answering every URL with the five-period payload. -/
def forecastEnv5 : String → Option Json := fun _ => some wforecast5

/-- Witness for the amended C5 on a five-period payload: exactly 4 lines
survive the truncation. -/
theorem get_forecast_success_format_witness :
    (coerceFloat (.num 1) = some 1 ∧
      forecastEnv5 (pointsUrl 1 2) = some wforecast5 ∧
      wperiods5.length = 5) ∧
    (∃ lines, (wperiods5.take 4).mapM formatPeriod = .ok lines ∧
      lines.length = (wperiods5.take 4).length ∧ lines.length ≤ 4 ∧
      get_forecast forecastEnv5 (.num 1) (.num 2) =
        (.ok (String.intercalate "\n" lines),
          [pointsUrl 1 2, "https://api.weather.gov/gridpoints/TEST"]) ∧
      ∀ qfs, formatPeriod (.obj qfs) = .ok
        (pyStr (getD qfs "name" (.str "Period")) ++ ": "
          ++ pyStr (getD qfs "shortForecast" (.str "n/a")) ++ " ("
          ++ pyStr (getD qfs "temperature" (.str "n/a")) ++ "Â°"
          ++ pyStr (getD qfs "temperatureUnit" (.str "")) ++ ") Wind "
          ++ pyStr (getD qfs "windSpeed" (.str "")))) :=
  ⟨⟨rfl, rfl, rfl⟩,
    get_forecast_success_format forecastEnv5 (.num 1) (.num 2) 1 2 rfl rfl
      _ _ "properties" "forecast" "https://api.weather.gov/gridpoints/TEST"
      rfl rfl rfl
      _ _ "properties" "periods" wperiods5 rfl rfl rfl
      (by
        intro p hp
        simp only [wperiods5, List.take, List.mem_cons] at hp
        rcases hp with rfl | rfl | rfl | rfl | hp
        · exact ⟨_, rfl⟩
        · exact ⟨_, rfl⟩
        · exact ⟨_, rfl⟩
        · exact ⟨_, rfl⟩
        · simp at hp)⟩

/-! ## Claims about the client REPL -/

lemma isPrefixOf_length_le :
    ∀ (p l : List Char), p.isPrefixOf l = true → p.length ≤ l.length
  | [], _, _ => Nat.zero_le _
  | _ :: _, [], h => by simp [List.isPrefixOf] at h
  | a :: as, b :: bs, h => by
    have h' := (Bool.and_eq_true _ _).mp h
    have ih := isPrefixOf_length_le as bs h'.2
    simp only [List.length_cons]
    omega

lemma pyStartsWith_length_ge {s p : String} (h : pyStartsWith s p = true) :
    p.data.length ≤ s.data.length :=
  isPrefixOf_length_le p.data s.data h

lemma ne_empty_of_pyStartsWith {s p : String} (hp : 1 ≤ p.data.length)
    (h : pyStartsWith s p = true) : s ≠ "" := by
  intro he
  subst he
  have hle := pyStartsWith_length_ge h
  have h0 : ("" : String).data.length = 0 := rfl
  omega

lemma pyLower_ne_quit {q : String} (h5 : 5 ≤ q.data.length) : pyLower q ≠ "quit" := by
  intro he
  have hl : (pyLower q).data.length = q.data.length := by simp [pyLower]
  rw [he] at hl
  have h4 : ("quit" : String).data.length = 4 := rfl
  omega

lemma pyStartsWith_forecast_not_alerts {q : String}
    (h : pyStartsWith q "forecast " = true) : pyStartsWith q "alerts " = false := by
  unfold pyStartsWith at h ⊢
  generalize q.data = l at h ⊢
  cases l with
  | nil => exact absurd h (by decide)
  | cons c cs =>
    have h' : ('f' == c && List.isPrefixOf ['o','r','e','c','a','s','t',' '] cs) = true := h
    have hc : c = 'f' :=
      (beq_iff_eq.mp ((Bool.and_eq_true _ _).mp h').1).symm
    subst hc
    show ('a' == 'f' && List.isPrefixOf ['l','e','r','t','s',' '] cs) = false
    rfl

/-- Claim C8: from `AwaitingInput`, a line whose stripped, lowercased text
is `quit` closes the REPL without printing or issuing any tool call, and an
empty line re-prompts with no state change, output, or tool call. -/
theorem clientStep_quit_and_empty :
    (∀ (oracle : ToolCall → Except String String) (s : String),
      pyLower (pyStrip s) = "quit" →
      clientStep oracle (.line s) = ⟨.closed, [], []⟩) ∧
    (∀ oracle, clientStep oracle (.line "") = ⟨.awaitingInput, [], []⟩) := by
  constructor
  · intro oracle s hq
    have hne : pyStrip s ≠ "" := by
      intro h0
      rw [h0] at hq
      exact absurd hq (by decide)
    simp only [clientStep]
    rw [if_neg hne, if_pos hq]
  · intro oracle
    rfl

/-- Witness for C8 at the line `"  QuIt "` (mixed case, padded) and the
empty line. -/
theorem clientStep_quit_and_empty_witness :
    (pyLower (pyStrip "  QuIt ") = "quit" ∧
      clientStep okOracle (.line "  QuIt ") = ⟨.closed, [], []⟩) ∧
    clientStep okOracle (.line "") = ⟨.awaitingInput, [], []⟩ :=
  ⟨⟨rfl, clientStep_quit_and_empty.1 okOracle "  QuIt " rfl⟩,
    clientStep_quit_and_empty.2 okOracle⟩

/-- Claim C7: every non-quit line leaves the REPL in `AwaitingInput`
(dispatch errors never terminate the session); a dispatch that raises is
caught and printed as `Error: <message>`; and a malformed numeric
`forecast` argument is exactly such an error, raising
`could not convert string to float: '...'` with no tool call issued. -/
theorem clientStep_error_boundary :
    (∀ (oracle : ToolCall → Except String String) (s : String),
      pyLower (pyStrip s) ≠ "quit" →
      (clientStep oracle (.line s)).next = .awaitingInput) ∧
    (∀ (oracle : ToolCall → Except String String) (s : String) cs e,
      pyStrip s ≠ "" → pyLower (pyStrip s) ≠ "quit" →
      dispatchCmd oracle (pyStrip s) = (cs, .error e) →
      clientStep oracle (.line s) = ⟨.awaitingInput, ["Error: " ++ e], cs⟩) ∧
    (∀ (oracle : ToolCall → Except String String) (q t1 t2 : String),
      pyStartsWith q "alerts " = false →
      pyStartsWith q "forecast " = true →
      pyWords q = ["forecast", t1, t2] → parsePyFloat t1 = none →
      dispatchCmd oracle q =
        ([], .error ("could not convert string to float: '" ++ t1 ++ "'"))) := by
  refine ⟨?_, ?_, ?_⟩
  · intro oracle s hq
    simp only [clientStep]
    by_cases h0 : pyStrip s = ""
    · rw [if_pos h0]
    · rw [if_neg h0, if_neg hq]
      rcases hd : dispatchCmd oracle (pyStrip s) with ⟨cs, r⟩
      cases r <;> rfl
  · intro oracle s cs e h0 hq hd
    simp only [clientStep]
    rw [if_neg h0, if_neg hq, hd]
  · intro oracle q t1 t2 ha hf hw hp
    unfold dispatchCmd
    rw [if_neg (by simp [ha]), if_pos hf, hw]
    rw [if_neg (by simp)]
    simp [List.getD, hp]

/-- A tool oracle raising on every call, modelling a failing
`session.call_tool`. -/
def errOracle : ToolCall → Except String String := fun _ => .error "boom"

/-- Witness for C7: a non-quit line stays in the loop; a raising tool call
prints `Error: boom`; a bad float in `forecast x 2` raises the conversion
error without a tool call. -/
theorem clientStep_error_boundary_witness :
    (pyLower (pyStrip "hello") ≠ "quit" ∧
      (clientStep okOracle (.line "hello")).next = .awaitingInput) ∧
    (pyStrip "alerts CA" ≠ "" ∧
      dispatchCmd errOracle (pyStrip "alerts CA") = ([.alerts "CA"], .error "boom") ∧
      clientStep errOracle (.line "alerts CA") =
        ⟨.awaitingInput, ["Error: " ++ "boom"], [.alerts "CA"]⟩) ∧
    (pyWords "forecast x 2" = ["forecast", "x", "2"] ∧
      parsePyFloat "x" = none ∧
      dispatchCmd okOracle "forecast x 2" =
        ([], .error ("could not convert string to float: '" ++ "x" ++ "'"))) :=
  ⟨⟨by decide, clientStep_error_boundary.1 okOracle "hello" (by decide)⟩,
    ⟨by decide, rfl,
      clientStep_error_boundary.2.1 errOracle "alerts CA" [.alerts "CA"] "boom"
        (by decide) (by decide) rfl⟩,
    ⟨rfl, rfl,
      clientStep_error_boundary.2.2 okOracle "forecast x 2" "x" "2" rfl rfl rfl rfl⟩⟩

/-- Counterexample to C2 as stated: the line `"alerts CA NY"` carries two
further tokens where the alerts command requires one, yet the client
issues a `get_alerts` tool call with argument `"CA NY"` and prints the
tool's result — no usage message, and a tool call is issued. -/
theorem client_alerts_no_arity_check_cex :
    clientStep okOracle (.line "alerts CA NY") =
      ⟨.awaitingInput, ["ok"], [.alerts "CA NY"]⟩ ∧
    (clientStep okOracle (.line "alerts CA NY")).calls ≠ [] :=
  ⟨rfl, by decide⟩

/-- Claim C2 (amended): only the `forecast` command is arity-checked — a
`forecast` line without exactly 2 further tokens prints the usage message
and stays in `AwaitingInput` with no tool call; a line starting with
`"alerts "` always issues a `get_alerts` call whose argument is the rest
of the line after the first whitespace run, with no arity check; any other
non-empty, non-quit line prints the unknown-command message with no tool
call. -/
theorem client_command_dispatch (oracle : ToolCall → Except String String) (s : String) :
    (pyStartsWith (pyStrip s) "forecast " = true →
      (pyWords (pyStrip s)).length ≠ 3 →
      clientStep oracle (.line s) =
        ⟨.awaitingInput, ["Usage: forecast <LAT> <LON>"], []⟩) ∧
    (pyStartsWith (pyStrip s) "alerts " = true →
      (clientStep oracle (.line s)).calls =
        [.alerts (pyLStrip (pyDrop (pyStrip s) 7))]) ∧
    (pyStrip s ≠ "" → pyLower (pyStrip s) ≠ "quit" →
      pyStartsWith (pyStrip s) "alerts " = false →
      pyStartsWith (pyStrip s) "forecast " = false →
      clientStep oracle (.line s) =
        ⟨.awaitingInput,
          ["Unknown command. Try: alerts CA  |  forecast 37.78 -122.42"], []⟩) := by
  refine ⟨?_, ?_, ?_⟩
  · intro hf harity
    have hne : pyStrip s ≠ "" := ne_empty_of_pyStartsWith (by decide) hf
    have hnq : pyLower (pyStrip s) ≠ "quit" := by
      refine pyLower_ne_quit ?_
      have := pyStartsWith_length_ge hf
      have h9 : ("forecast " : String).data.length = 9 := rfl
      omega
    have ha : pyStartsWith (pyStrip s) "alerts " = false :=
      pyStartsWith_forecast_not_alerts hf
    simp only [clientStep]
    rw [if_neg hne, if_neg hnq]
    unfold dispatchCmd
    rw [if_neg (by simp [ha]), if_pos hf, if_pos harity]
  · intro ha
    have hne : pyStrip s ≠ "" := ne_empty_of_pyStartsWith (by decide) ha
    have hnq : pyLower (pyStrip s) ≠ "quit" := by
      refine pyLower_ne_quit ?_
      have := pyStartsWith_length_ge ha
      have h7 : ("alerts " : String).data.length = 7 := rfl
      omega
    simp only [clientStep]
    rw [if_neg hne, if_neg hnq]
    unfold dispatchCmd
    rw [if_pos ha]
    rcases ho : oracle (.alerts (pyLStrip (pyDrop (pyStrip s) 7))) with t | e <;>
      simp [ho]
  · intro hne hnq ha hf
    simp only [clientStep]
    rw [if_neg hne, if_neg hnq]
    unfold dispatchCmd
    rw [if_neg (by simp [ha]), if_neg (by simp [hf])]

/-- Witness for the amended C2: wrong-arity `forecast 1 2 3` prints usage;
`alerts CA NY` issues the un-checked call; `hello` is unknown. -/
theorem client_command_dispatch_witness :
    (pyStartsWith (pyStrip "forecast 1 2 3") "forecast " = true ∧
      (pyWords (pyStrip "forecast 1 2 3")).length ≠ 3 ∧
      clientStep okOracle (.line "forecast 1 2 3") =
        ⟨.awaitingInput, ["Usage: forecast <LAT> <LON>"], []⟩) ∧
    (pyStartsWith (pyStrip "alerts CA NY") "alerts " = true ∧
      (clientStep okOracle (.line "alerts CA NY")).calls =
        [.alerts (pyLStrip (pyDrop (pyStrip "alerts CA NY") 7))]) ∧
    (pyStrip "hello" ≠ "" ∧
      clientStep okOracle (.line "hello") =
        ⟨.awaitingInput,
          ["Unknown command. Try: alerts CA  |  forecast 37.78 -122.42"], []⟩) :=
  ⟨⟨rfl, by decide,
      (client_command_dispatch okOracle "forecast 1 2 3").1 rfl (by decide)⟩,
    ⟨rfl, (client_command_dispatch okOracle "alerts CA NY").2.1 rfl⟩,
    ⟨by decide,
      (client_command_dispatch okOracle "hello").2.2 (by decide) (by decide) rfl rfl⟩⟩

end FlutterMCP
